import Mathlib

/-!
Verification of the vct-status-generator scraping pipeline
(`src/scraping/vlr_scraper.py` together with the ORM model declarations in
`src/core/models.py`).

The Python code is shallowly embedded: strings are Lean `String`s handled
through their character lists, Python `int` is `Int`, Python `float` is
modelled as `Rat` (every value the pipeline actually produces is a short
decimal, exactly representable), `None` is `Option.none` or the `pnone`
constructor of `PyVal`, and the database session is an explicit record of
table contents.  Python `str.strip` / `str.isdigit` are modelled on their ASCII
behaviour, which is the behaviour exercised by the scraped pages.
-/

/-! ### Basic string helpers mirroring Python primitives -/

/-- Characters stripped by Python `str.strip()` (ASCII whitespace set). -/
def isPySpace (c : Char) : Bool :=
  c = ' ' || c = '\t' || c = '\n' || c = '\r' || c = Char.ofNat 11 || c = Char.ofNat 12

/-- Python `s.strip()`: drop leading and trailing whitespace. -/
def pyStrip (s : String) : String :=
  ⟨((s.data.dropWhile isPySpace).reverse.dropWhile isPySpace).reverse⟩

/-- Python `s.replace(c, "")`: delete every occurrence of the character `c`. -/
def removeChar (c : Char) (s : String) : String :=
  ⟨s.data.filter (fun d => d ≠ c)⟩

/-- Python `s.isdigit()` restricted to ASCII digits: nonempty and all digits. -/
def pyIsDigit (s : String) : Bool :=
  !s.data.isEmpty && s.data.all Char.isDigit

/-- Does the character list `p` lead (is it an initial segment of) `s`? -/
def leadMatch : List Char → List Char → Bool
  | [], _ => true
  | _ :: _, [] => false
  | c :: cs, d :: ds => c = d && leadMatch cs ds

/-- Python `s.startswith(p)`. -/
def strStarts (p s : String) : Bool := leadMatch p.data s.data

/-- Python slicing `s[n:]`. -/
def strDrop (s : String) (n : Nat) : String := ⟨s.data.drop n⟩

/-- Occurrence of `needle` as a contiguous segment of `hay`. -/
def hasSubstr : List Char → List Char → Bool
  | needle, [] => leadMatch needle []
  | needle, c :: t => leadMatch needle (c :: t) || hasSubstr needle t

/-- Python `needle in hay` for strings. -/
def strIn (needle hay : String) : Bool := hasSubstr needle.data hay.data

/-- Python `s.lower()` (ASCII). -/
def strLower (s : String) : String := ⟨s.data.map Char.toLower⟩

/-- Python `s.upper()` (ASCII). -/
def strUpper (s : String) : String := ⟨s.data.map Char.toUpper⟩

/-- Decimal value of a digit list, accumulated left to right as Python `int` does. -/
def digitsVal (l : List Char) : Nat :=
  l.foldl (fun n c => 10 * n + (c.toNat - 48)) 0

/-- Decimal value of a digit string. -/
def natOfStr (s : String) : Nat := digitsVal s.data

/-- Python `int(s)` on strings of shape `-?[0-9]+`. -/
def strIntVal (s : String) : Int :=
  if strStarts "-" s then - (natOfStr (strDrop s 1) : Int) else (natOfStr s : Int)

/-- Python `s.replace(".", "", 1)`: remove only the first dot. -/
def removeFirstChar (c : Char) : List Char → List Char
  | [] => []
  | d :: ds => if d = c then ds else d :: removeFirstChar c ds

/-- String version of `removeFirstChar` for the dot. -/
def removeFirstDot (s : String) : String := ⟨removeFirstChar '.' s.data⟩

/-- Splitting a character list at every occurrence of `c`, accumulator style;
mirrors Python `s.split(c)` for a one-character separator. -/
def splitCharAux (c : Char) : List Char → List Char → List (List Char)
  | [], acc => [acc.reverse]
  | d :: ds, acc =>
    if d = c then acc.reverse :: splitCharAux c ds []
    else splitCharAux c ds (d :: acc)

/-- Python `s.split(c)` for a single-character separator `c`. -/
def pySplitChar (c : Char) (s : String) : List String :=
  (splitCharAux c s.data []).map (fun l => ⟨l⟩)

/-- Value of a nonnegative decimal string with at most one dot, as Python
`float(s)` computes it (exact rational arithmetic in the model). -/
def posRatOfStr (s : String) : Rat :=
  match pySplitChar '.' s with
  | [a] => (natOfStr a : Rat)
  | [a, b] => (natOfStr a : Rat) + (natOfStr b : Rat) / ((10 : Rat) ^ b.length)
  | _ => 0

/-- Python `float(s)` on the cleaned shapes accepted by the normalizer. -/
def ratOfClean (s : String) : Rat :=
  if strStarts "-" s then - posRatOfStr (strDrop s 1) else posRatOfStr s

/-- Truthiness of an optional string, as Python evaluates `if s:`. -/
def truthyS : Option String → Bool
  | none => false
  | some s => !s.data.isEmpty

/-! ### The Field Normalizer `_safe_cast` (vlr_scraper.py lines 25-58) -/

/-- A Python scalar as fed to `_safe_cast`: null, int, float or str. -/
inductive PyVal where
  | pnone
  | vint (n : Int)
  | vfloat (q : Rat)
  | vstr (s : String)
deriving DecidableEq, Repr

/-- The target cast types `_safe_cast` is invoked with. -/
inductive CastTy where
  | tint
  | tfloat
  | tstr
deriving DecidableEq, Repr

/-- Fractional decimal digits of `rem / den`, up to `fuel` places. -/
def fracDigitsAux : Nat → Nat → Nat → String
  | _, _, 0 => ""
  | rem, den, Nat.succ fuel =>
    if rem = 0 then "" else
      toString (rem * 10 / den) ++ fracDigitsAux (rem * 10 % den) den fuel

/-- Rendering of a float value, modelling Python `str(float)`: a signed
decimal string such as `"45.0"`.  (Digit cut-off at 30 places; the exact
digits are irrelevant to the theorems below, which quantify over all
strings.) -/
def floatRepr (q : Rat) : String :=
  (if q < 0 then "-" else "")
    ++ toString (q.num.natAbs / q.den) ++ "."
    ++ (let f := fracDigitsAux (q.num.natAbs % q.den) q.den 30
        if f = "" then "0" else f)

/-- Python `str(value)` for the scalars above. -/
def pyStr : PyVal → String
  | .pnone => "None"
  | .vint n => toString n
  | .vfloat q => floatRepr q
  | .vstr s => s

/-- The cleaning step of `_safe_cast` (line 31):
`str(value).strip().replace("%", "").replace("/", "").strip()`. -/
def pyClean (s : String) : String :=
  pyStrip (removeChar '/' (removeChar '%' (pyStrip s)))

/-- Python `cast_type in (int, float)` (line 33). -/
def isNumTy : CastTy → Bool
  | .tint => true
  | .tfloat => true
  | .tstr => false

/-- The `cast_type is int` branch of `_safe_cast` (lines 36-42). -/
def castIntBranch (cleaned : String) (default : PyVal) : PyVal :=
  if strStarts "-" cleaned && pyIsDigit (strDrop cleaned 1) then
    .vint (strIntVal cleaned)
  else if pyIsDigit cleaned then
    .vint (strIntVal cleaned)
  else default

/-- The `cast_type is float` branch of `_safe_cast` (lines 43-53). -/
def castFloatBranch (cleaned : String) (default : PyVal) : PyVal :=
  if (strStarts "-" cleaned && pyIsDigit (removeFirstDot (strDrop cleaned 1)))
      || pyIsDigit (removeFirstDot cleaned) then
    .vfloat (ratOfClean cleaned)
  else if strStarts "." cleaned && pyIsDigit (strDrop cleaned 1) then
    .vfloat (ratOfClean ("0" ++ cleaned))
  else if strStarts "-." cleaned && pyIsDigit (strDrop cleaned 2) then
    .vfloat (ratOfClean ("-0" ++ strDrop cleaned 1))
  else default

/-- Body of `_safe_cast` after `str(value)` (lines 31-58).  The guards make
every branch total, so the `try/except` of the source can never fire on the
int/float/str paths; it is modelled by the guarded branches returning the
default. -/
def castCleaned (raw : String) (t : CastTy) (default : PyVal) : PyVal :=
  let cleaned0 := pyClean raw
  let cleaned :=
    if isNumTy t && strStarts "+" cleaned0 then strDrop cleaned0 1 else cleaned0
  match t with
  | .tint => castIntBranch cleaned default
  | .tfloat => castFloatBranch cleaned default
  | .tstr => .vstr cleaned

/-- `_safe_cast(value, cast_type, default)` (vlr_scraper.py lines 25-58). -/
def _safe_cast (value : PyVal) (t : CastTy) (default : PyVal) : PyVal :=
  match value with
  | .pnone => default
  | v => castCleaned (pyStr v) t default

/-- Does a `PyVal` carry the given cast target type? -/
def isOfTy : CastTy → PyVal → Bool
  | .tint, .vint _ => true
  | .tfloat, .vfloat _ => true
  | .tstr, .vstr _ => true
  | _, _ => false

/-- Mathematical (spec-side) reading of a digit string as a number, via
`Nat.ofDigits`, independent of the accumulator loop used by the code model. -/
def decimalNat (s : String) : Nat :=
  Nat.ofDigits 10 ((s.data.map (fun c => c.toNat - 48)).reverse)

/-- Spec-side value of a string matching `-?[0-9]+`. -/
def decimalVal (s : String) : Int :=
  if strStarts "-" s then - (decimalNat (strDrop s 1) : Int) else (decimalNat s : Int)

/-- The leading-plus strip applied by `_safe_cast` for numeric targets. -/
def plusStrip (s : String) : String :=
  if strStarts "+" s then strDrop s 1 else s

/-- Regex `^-?[0-9]+$` as a Boolean predicate. -/
def matchesIntShape (s : String) : Bool :=
  (strStarts "-" s && pyIsDigit (strDrop s 1)) || pyIsDigit s

theorem digitsVal_eq_ofDigits (l : List Char) :
    ∀ a : Nat, l.foldl (fun n c => 10 * n + (c.toNat - 48)) a
      = a * 10 ^ l.length + Nat.ofDigits 10 ((l.map (fun c => c.toNat - 48)).reverse) := by
  induction l with
  | nil => intro a; simp [Nat.ofDigits]
  | cons c t ih =>
    intro a
    simp only [List.foldl_cons, List.map_cons, List.reverse_cons, List.length_cons]
    rw [ih, Nat.ofDigits_append]
    simp [Nat.ofDigits, Nat.pow_succ]
    ring

theorem natOfStr_eq_decimalNat (s : String) : natOfStr s = decimalNat s := by
  have h := digitsVal_eq_ofDigits s.data 0
  simpa [natOfStr, digitsVal, decimalNat] using h

theorem strIntVal_eq_decimalVal (s : String) : strIntVal s = decimalVal s := by
  unfold strIntVal decimalVal
  rw [natOfStr_eq_decimalNat, natOfStr_eq_decimalNat]

theorem castCleaned_tint (raw : String) (d : PyVal) :
    castCleaned raw CastTy.tint d = castIntBranch (plusStrip (pyClean raw)) d := rfl

theorem castCleaned_tfloat (raw : String) (d : PyVal) :
    castCleaned raw CastTy.tfloat d = castFloatBranch (plusStrip (pyClean raw)) d := rfl

theorem castCleaned_tstr (raw : String) (d : PyVal) :
    castCleaned raw CastTy.tstr d = PyVal.vstr (pyClean raw) := rfl

theorem castIntBranch_eq (s : String) (d : PyVal) :
    castIntBranch s d =
      if matchesIntShape s then PyVal.vint (strIntVal s) else d := by
  unfold castIntBranch matchesIntShape
  by_cases h1 : (strStarts "-" s && pyIsDigit (strDrop s 1)) = true <;>
    by_cases h2 : pyIsDigit s = true <;>
      simp [h1, h2]

theorem plusStrip_of_shape (c : String) (h : matchesIntShape c = true) :
    plusStrip c = c := by
  unfold plusStrip
  rcases hcd : c.data with _ | ⟨d0, t0⟩
  · have hfalse : strStarts "+" c = false := by
      unfold strStarts
      rw [hcd]
      decide
    simp [hfalse]
  · have hstart : strStarts "+" c = (decide ('+' = d0) && true) := by
      unfold strStarts
      rw [hcd]
      rfl
    have hne : d0 ≠ '+' := by
      unfold matchesIntShape at h
      simp only [Bool.or_eq_true, Bool.and_eq_true] at h
      rcases h with ⟨hm, _⟩ | hdig
      · unfold strStarts at hm
        rw [hcd] at hm
        have : ('-' : Char) = d0 := by
          have hm2 : (decide (('-' : Char) = d0) && leadMatch [] t0) = true := hm
          simp at hm2
          exact hm2.1
        intro he
        rw [he] at this
        exact absurd this (by decide)
      · unfold pyIsDigit at hdig
        rw [hcd] at hdig
        simp at hdig
        intro he
        have := hdig.1
        rw [he] at this
        exact absurd this (by decide)
    have : strStarts "+" c = false := by
      rw [hstart]
      simp [Ne.symm hne]
    simp [this]

/-- C6 — Normalizer value correctness: for every non-null input whose cleaned
form matches the regex `-?[0-9]+`, the integer cast returns exactly the decimal
value of the cleaned string; for cleaned input that is empty or does not have
the numeric shape (after the leading-plus strip), the caller-supplied default
is returned; and the five concrete instances from the specification hold. -/
theorem c6_normalizer_int_exact :
    (∀ (v d : PyVal), v ≠ PyVal.pnone →
        matchesIntShape (pyClean (pyStr v)) = true →
        _safe_cast v CastTy.tint d = PyVal.vint (decimalVal (pyClean (pyStr v))))
    ∧ (∀ (v d : PyVal), v ≠ PyVal.pnone →
        matchesIntShape (plusStrip (pyClean (pyStr v))) = false →
        _safe_cast v CastTy.tint d = d)
    ∧ _safe_cast (PyVal.vstr "+7") CastTy.tint PyVal.pnone = PyVal.vint 7
    ∧ _safe_cast (PyVal.vstr "7") CastTy.tint PyVal.pnone = PyVal.vint 7
    ∧ _safe_cast (PyVal.vstr "-7") CastTy.tint PyVal.pnone = PyVal.vint (-7)
    ∧ _safe_cast (PyVal.vstr "45%") CastTy.tfloat PyVal.pnone = PyVal.vfloat 45
    ∧ _safe_cast (PyVal.vstr "/ 12 /") CastTy.tint PyVal.pnone = PyVal.vint 12 := by
  have hred : ∀ (v : PyVal) (d : PyVal), v ≠ PyVal.pnone →
      _safe_cast v CastTy.tint d = castIntBranch (plusStrip (pyClean (pyStr v))) d := by
    intro v d hv
    cases v
    · exact absurd rfl hv
    · exact castCleaned_tint _ d
    · exact castCleaned_tint _ d
    · exact castCleaned_tint _ d
  refine ⟨?_, ?_, by decide, by decide, by decide, by decide, by decide⟩
  · intro v d hv hshape
    rw [hred v d hv, plusStrip_of_shape _ hshape, castIntBranch_eq, if_pos hshape,
      strIntVal_eq_decimalVal]
  · intro v d hv hshape
    rw [hred v d hv, castIntBranch_eq, if_neg]
    rw [hshape]
    simp

/-- C7 — Normalizer totality and safety: for every input scalar (null, int,
float or string) and every target type among int, float and str, `_safe_cast`
returns either a value of the target type or the caller-supplied default; the
embedding is a total function, so no casting exception can propagate. -/
theorem c7_safe_cast_total : ∀ (v : PyVal) (t : CastTy) (d : PyVal),
    _safe_cast v t d = d ∨ isOfTy t (_safe_cast v t d) = true := by
  have hbranch : ∀ (raw : String) (t : CastTy) (d : PyVal),
      castCleaned raw t d = d ∨ isOfTy t (castCleaned raw t d) = true := by
    intro raw t d
    cases t
    · rw [castCleaned_tint]
      unfold castIntBranch
      split_ifs <;> first | (left; rfl) | (right; rfl)
    · rw [castCleaned_tfloat]
      unfold castFloatBranch
      split_ifs <;> first | (left; rfl) | (right; rfl)
    · rw [castCleaned_tstr]
      right
      rfl
  intro v t d
  cases v
  · left; rfl
  · exact hbranch _ t d
  · exact hbranch _ t d
  · exact hbranch _ t d

/-- Recomputation of a derived differential (vlr_scraper.py lines 433-438):
the directly parsed value wins; only if it is missing and both components are
present is the difference of the components used. -/
def recalcDiff : Option Int → Option Int → Option Int → Option Int
  | none, some kv, some dv => some (kv - dv)
  | diff, _, _ => diff

/-- The two recomputation blocks of `parse_match_details` (lines 431-438),
applied to the kill-death and first-kill/first-death differentials. -/
def finalizeDiffs (kdd k d fkfd fk fd : Option Int) : Option Int × Option Int :=
  (recalcDiff kdd k d, recalcDiff fkfd fk fd)

/-- C8 — Differential recomputation: when the parsed differential is missing
and both components are present, the emitted value is their difference (18 and
14 give 4); when the row supplies an explicit differential it is emitted
unchanged; the same rule governs the first-kill/first-death differential. -/
theorem c8_diff_recompute :
    (∀ (k d fk fd : Int),
        finalizeDiffs none (some k) (some d) none (some fk) (some fd)
          = (some (k - d), some (fk - fd)))
    ∧ (∀ (x y : Int) (k d fk fd : Option Int),
        finalizeDiffs (some x) k d (some y) fk fd = (some x, some y))
    ∧ finalizeDiffs none (some 18) (some 14) none none none = (some 4, none) := by
  refine ⟨fun k d fk fd => rfl, ?_, by decide⟩
  intro x y k d fk fd
  unfold finalizeDiffs recalcDiff
  cases k <;> cases d <;> cases fk <;> cases fd <;> rfl

theorem pyStrip_subset (t : String) : ∀ c ∈ (pyStrip t).data, c ∈ t.data := by
  intro c hc
  unfold pyStrip at hc
  simp only [List.mem_reverse] at hc
  have h1 := (List.dropWhile_sublist (p := isPySpace)
    (l := (t.data.dropWhile isPySpace).reverse)).subset hc
  simp only [List.mem_reverse] at h1
  exact (List.dropWhile_sublist (p := isPySpace) (l := t.data)).subset h1

/-- C10 — The cleaning step deletes every slash and percent character anywhere
in the input (not only surrounding separators), so interior separators vanish
before casting: `"1/2"` casts to 12 and `"5%0"` casts to 50. -/
theorem c10_clean_removes_separators :
    (∀ s : String, (pyClean s).data.all (fun c => c ≠ '/' && c ≠ '%') = true)
    ∧ _safe_cast (PyVal.vstr "1/2") CastTy.tint PyVal.pnone = PyVal.vint 12
    ∧ _safe_cast (PyVal.vstr "5%0") CastTy.tint PyVal.pnone = PyVal.vint 50 := by
  refine ⟨?_, by decide, by decide⟩
  intro s
  rw [List.all_eq_true]
  intro c hc
  have h1 := pyStrip_subset _ c hc
  unfold removeChar at h1
  simp only [List.mem_filter] at h1
  rcases h1 with ⟨h2, hslash⟩
  rcases h2 with ⟨_, hpct⟩
  simp only [decide_eq_true_eq] at hslash hpct
  simp [hslash, hpct]

/-! ### Match rows and the list-scrape upsert (vlr_scraper.py lines 176-230) -/

/-- One record emitted by `parse_match_list` (the `match_data` dict built at
lines 164-169).  The status is always a string, never null: the parser
substitutes `"Unknown"` when no status element is found. -/
structure ParsedMatch where
  match_source_id : String
  match_url : String
  status : String
  team1_name : Option String
  team2_name : Option String
  team1_score : Option Int
  team2_score : Option Int
  event_name : Option String
deriving DecidableEq, Repr

/-- The columns of the `matches` table touched by `save_basic_match_info`
(src/core/models.py, class `Match`).  The date and competition-type columns
are never written by the scraper and are omitted. -/
structure MatchRow where
  match_source_id : String
  match_url : Option String
  status : String
  event_name : Option String
  team1_name : Option String
  team2_name : Option String
  team1_score : Option Int
  team2_score : Option Int
  region_id : Option Nat
deriving DecidableEq, Repr

/-- Line 208: `if existing_match.status != status: existing_match.status = status`. -/
def stepStatus (m : MatchRow) (d : ParsedMatch) : MatchRow :=
  if m.status ≠ d.status then { m with status := d.status } else m

/-- Line 209: score filled only from null, and only by a non-null value. -/
def stepT1Score (m : MatchRow) (d : ParsedMatch) : MatchRow :=
  if m.team1_score = none ∧ d.team1_score ≠ none then
    { m with team1_score := d.team1_score } else m

/-- Line 210. -/
def stepT2Score (m : MatchRow) (d : ParsedMatch) : MatchRow :=
  if m.team2_score = none ∧ d.team2_score ≠ none then
    { m with team2_score := d.team2_score } else m

/-- Line 211: name filled only from null, and only by a truthy string. -/
def stepT1Name (m : MatchRow) (d : ParsedMatch) : MatchRow :=
  if m.team1_name = none ∧ truthyS d.team1_name then
    { m with team1_name := d.team1_name } else m

/-- Line 212. -/
def stepT2Name (m : MatchRow) (d : ParsedMatch) : MatchRow :=
  if m.team2_name = none ∧ truthyS d.team2_name then
    { m with team2_name := d.team2_name } else m

/-- Line 213. -/
def stepEvent (m : MatchRow) (d : ParsedMatch) : MatchRow :=
  if m.event_name = none ∧ truthyS d.event_name then
    { m with event_name := d.event_name } else m

/-- Line 214: region filled only from null by a non-null inferred id. -/
def stepRegion (m : MatchRow) (rid : Option Nat) : MatchRow :=
  if m.region_id = none ∧ rid ≠ none then { m with region_id := rid } else m

/-- The `existing_match` branch of `save_basic_match_info` (lines 206-214):
the seven conditional updates applied in source order. -/
def updateExisting (m : MatchRow) (d : ParsedMatch) (rid : Option Nat) : MatchRow :=
  stepRegion (stepEvent (stepT2Name (stepT1Name
    (stepT2Score (stepT1Score (stepStatus m d) d) d) d) d) d) rid

theorem stepStatus_eq (m : MatchRow) (d : ParsedMatch) :
    stepStatus m d = { m with status := d.status } := by
  unfold stepStatus
  split
  · rfl
  · rename_i h
    simp only [ne_eq, not_not] at h
    rw [← h]

theorem stepT1Score_eq (m : MatchRow) (d : ParsedMatch) :
    stepT1Score m d
      = { m with team1_score :=
            if m.team1_score = none then d.team1_score else m.team1_score } := by
  unfold stepT1Score
  split
  · rename_i h
    rw [if_pos h.1]
  · rename_i h
    by_cases h1 : m.team1_score = none
    · have h2 : d.team1_score = none := by
        by_contra hx
        exact h ⟨h1, hx⟩
      rw [if_pos h1, h2, ← h1]
    · rw [if_neg h1]

theorem stepT2Score_eq (m : MatchRow) (d : ParsedMatch) :
    stepT2Score m d
      = { m with team2_score :=
            if m.team2_score = none then d.team2_score else m.team2_score } := by
  unfold stepT2Score
  split
  · rename_i h
    rw [if_pos h.1]
  · rename_i h
    by_cases h1 : m.team2_score = none
    · have h2 : d.team2_score = none := by
        by_contra hx
        exact h ⟨h1, hx⟩
      rw [if_pos h1, h2, ← h1]
    · rw [if_neg h1]

theorem stepT1Name_eq (m : MatchRow) (d : ParsedMatch) :
    stepT1Name m d
      = { m with team1_name :=
            if m.team1_name = none ∧ truthyS d.team1_name
            then d.team1_name else m.team1_name } := by
  unfold stepT1Name
  split
  · rfl
  · rfl

theorem stepT2Name_eq (m : MatchRow) (d : ParsedMatch) :
    stepT2Name m d
      = { m with team2_name :=
            if m.team2_name = none ∧ truthyS d.team2_name
            then d.team2_name else m.team2_name } := by
  unfold stepT2Name
  split
  · rfl
  · rfl

theorem stepEvent_eq (m : MatchRow) (d : ParsedMatch) :
    stepEvent m d
      = { m with event_name :=
            if m.event_name = none ∧ truthyS d.event_name
            then d.event_name else m.event_name } := by
  unfold stepEvent
  split
  · rfl
  · rfl

theorem stepRegion_eq (m : MatchRow) (rid : Option Nat) :
    stepRegion m rid
      = { m with region_id := if m.region_id = none then rid else m.region_id } := by
  unfold stepRegion
  split
  · rename_i h
    rw [if_pos h.1]
  · rename_i h
    by_cases h1 : m.region_id = none
    · have h2 : rid = none := by
        by_contra hx
        exact h ⟨h1, hx⟩
      rw [if_pos h1, h2, ← h1]
    · rw [if_neg h1]

theorem updateExisting_fields (m : MatchRow) (d : ParsedMatch) (rid : Option Nat) :
    (updateExisting m d rid).match_source_id = m.match_source_id
    ∧ (updateExisting m d rid).match_url = m.match_url
    ∧ (updateExisting m d rid).status = d.status
    ∧ (updateExisting m d rid).event_name
        = (if m.event_name = none ∧ truthyS d.event_name then d.event_name else m.event_name)
    ∧ (updateExisting m d rid).team1_name
        = (if m.team1_name = none ∧ truthyS d.team1_name then d.team1_name else m.team1_name)
    ∧ (updateExisting m d rid).team2_name
        = (if m.team2_name = none ∧ truthyS d.team2_name then d.team2_name else m.team2_name)
    ∧ (updateExisting m d rid).team1_score
        = (if m.team1_score = none then d.team1_score else m.team1_score)
    ∧ (updateExisting m d rid).team2_score
        = (if m.team2_score = none then d.team2_score else m.team2_score)
    ∧ (updateExisting m d rid).region_id
        = (if m.region_id = none then rid else m.region_id) := by
  unfold updateExisting
  rw [stepStatus_eq, stepT1Score_eq, stepT2Score_eq, stepT1Name_eq, stepT2Name_eq,
    stepEvent_eq, stepRegion_eq]
  exact ⟨rfl, rfl, rfl, rfl, rfl, rfl, rfl, rfl, rfl⟩

/-- Region inference loop (lines 199-202): first mapping entry whose nonempty
abbreviation occurs in the uppercased event name wins. -/
def inferLoop : List (String × Nat) → String → Option Nat
  | [], _ => none
  | p :: rest, enU =>
    if !p.1.data.isEmpty && strIn p.1 enU then some p.2 else inferLoop rest enU

/-- Region inference of `save_basic_match_info` (lines 187-202): run the loop
on the uppercased event name when the event name is truthy, else infer
nothing. -/
def inferRegion (mapping : List (String × Nat)) (event_name : Option String) : Option Nat :=
  match event_name with
  | none => none
  | some en => if en.data.isEmpty then none else inferLoop mapping (strUpper en)

/-- Row inserted for a previously unseen match (lines 219-225). -/
def newMatchRow (d : ParsedMatch) (rid : Option Nat) : MatchRow :=
  { match_source_id := d.match_source_id
    match_url := some d.match_url
    status := d.status
    event_name := d.event_name
    team1_name := d.team1_name
    team2_name := d.team2_name
    team1_score := d.team1_score
    team2_score := d.team2_score
    region_id := rid }

/-- Replace the first row with the given source id by its updated version. -/
def updateFirstMatch : List MatchRow → ParsedMatch → Option Nat → List MatchRow
  | [], _, _ => []
  | m :: rest, d, rid =>
    if m.match_source_id = d.match_source_id then updateExisting m d rid :: rest
    else m :: updateFirstMatch rest d rid

/-- `save_basic_match_info` (lines 176-230) on an explicit table of match
rows: update the existing row found by source id, or append a new row. -/
def save_basic_match_info (db : List MatchRow) (d : ParsedMatch)
    (mapping : List (String × Nat)) : List MatchRow :=
  let rid := inferRegion mapping d.event_name
  if db.any (fun m => m.match_source_id = d.match_source_id) then
    updateFirstMatch db d rid
  else db ++ [newMatchRow d rid]

/-- Spec-side region inference: the first mapping entry whose abbreviation
occurs case-insensitively in the event name, `none` when the event name is
absent or nothing matches. -/
def regionFirstMatch (mapping : List (String × Nat)) (event_name : Option String) : Option Nat :=
  match event_name with
  | none => none
  | some en => (mapping.find? (fun p => strIn (strUpper p.1) (strUpper en))).map (fun p => p.2)

theorem truthy_ne_none (o : Option String) (h : truthyS o = true) : o ≠ none := by
  cases o
  · exact absurd h (by simp [truthyS])
  · simp

/-- C2 counterexample: an existing match stored as Completed and a re-scraped
record whose observed status is the parser placeholder Unknown; the upsert
overwrites the concrete stored status with Unknown, which the claim says can
never happen. -/
def c2StoredRow : MatchRow :=
  { match_source_id := "450053"
    match_url := some "https://vlr.gg/450053/team-a-vs-team-b"
    status := "Completed"
    event_name := none
    team1_name := none
    team2_name := none
    team1_score := none
    team2_score := none
    region_id := none }

/-- C2 counterexample: the newly observed record with status Unknown. -/
def c2NewRecord : ParsedMatch :=
  { match_source_id := "450053"
    match_url := "https://vlr.gg/450053/team-a-vs-team-b"
    status := "Unknown"
    team1_name := none
    team2_name := none
    team1_score := none
    team2_score := none
    event_name := none }

/-- C2 (counterexample): the stored status is Completed, the observed status
is the distinct placeholder Unknown, yet the upsert overwrites the stored
status with it — refuting the claim that an unknown observed status never
replaces a concrete stored one. -/
theorem c2_counterexample :
    c2StoredRow.status = "Completed"
    ∧ c2NewRecord.status = "Unknown"
    ∧ c2NewRecord.status ≠ c2StoredRow.status
    ∧ (updateExisting c2StoredRow c2NewRecord none).status = "Unknown" := by
  refine ⟨rfl, rfl, by decide, ?_⟩
  exact (updateExisting_fields c2StoredRow c2NewRecord none).2.2.1

/-- C2 (amended): in `save_basic_match_info` the stored status of an existing
match always becomes the newly observed status — it is overwritten exactly
when the new status differs, with no exception for an observed "unknown". -/
theorem c2_status_always_follows_new :
    ∀ (m : MatchRow) (d : ParsedMatch) (rid : Option Nat),
      (updateExisting m d rid).status = d.status := by
  intro m d rid
  exact (updateExisting_fields m d rid).2.2.1

/-- C5 — Fill-forward frame property of the match upsert: every nullable
non-status field (team names, scores, event name, region) of an existing row
is written only when the stored value is null and the new value is non-null;
a stored non-null value is never changed; and a null stored value takes the
newly supplied value. -/
theorem c5_fill_forward (m : MatchRow) (d : ParsedMatch) (rid : Option Nat) :
    ((m.event_name ≠ none → (updateExisting m d rid).event_name = m.event_name)
      ∧ ((updateExisting m d rid).event_name ≠ m.event_name →
          m.event_name = none ∧ (updateExisting m d rid).event_name = d.event_name
            ∧ d.event_name ≠ none)
      ∧ (m.event_name = none → truthyS d.event_name = true →
          (updateExisting m d rid).event_name = d.event_name))
    ∧ ((m.team1_name ≠ none → (updateExisting m d rid).team1_name = m.team1_name)
      ∧ ((updateExisting m d rid).team1_name ≠ m.team1_name →
          m.team1_name = none ∧ (updateExisting m d rid).team1_name = d.team1_name
            ∧ d.team1_name ≠ none)
      ∧ (m.team1_name = none → truthyS d.team1_name = true →
          (updateExisting m d rid).team1_name = d.team1_name))
    ∧ ((m.team2_name ≠ none → (updateExisting m d rid).team2_name = m.team2_name)
      ∧ ((updateExisting m d rid).team2_name ≠ m.team2_name →
          m.team2_name = none ∧ (updateExisting m d rid).team2_name = d.team2_name
            ∧ d.team2_name ≠ none)
      ∧ (m.team2_name = none → truthyS d.team2_name = true →
          (updateExisting m d rid).team2_name = d.team2_name))
    ∧ ((m.team1_score ≠ none → (updateExisting m d rid).team1_score = m.team1_score)
      ∧ ((updateExisting m d rid).team1_score ≠ m.team1_score →
          m.team1_score = none ∧ (updateExisting m d rid).team1_score = d.team1_score
            ∧ d.team1_score ≠ none)
      ∧ (m.team1_score = none → (updateExisting m d rid).team1_score = d.team1_score))
    ∧ ((m.team2_score ≠ none → (updateExisting m d rid).team2_score = m.team2_score)
      ∧ ((updateExisting m d rid).team2_score ≠ m.team2_score →
          m.team2_score = none ∧ (updateExisting m d rid).team2_score = d.team2_score
            ∧ d.team2_score ≠ none)
      ∧ (m.team2_score = none → (updateExisting m d rid).team2_score = d.team2_score))
    ∧ ((m.region_id ≠ none → (updateExisting m d rid).region_id = m.region_id)
      ∧ ((updateExisting m d rid).region_id ≠ m.region_id →
          m.region_id = none ∧ (updateExisting m d rid).region_id = rid ∧ rid ≠ none)
      ∧ (m.region_id = none → (updateExisting m d rid).region_id = rid)) := by
  obtain ⟨-, -, -, hev, ht1n, ht2n, ht1s, ht2s, hreg⟩ := updateExisting_fields m d rid
  refine ⟨⟨?_, ?_, ?_⟩, ⟨?_, ?_, ?_⟩, ⟨?_, ?_, ?_⟩, ⟨?_, ?_, ?_⟩, ⟨?_, ?_, ?_⟩, ⟨?_, ?_, ?_⟩⟩
  · intro h
    rw [hev, if_neg]
    intro hc
    exact h hc.1
  · intro hne
    rw [hev] at hne
    by_cases hc : m.event_name = none ∧ truthyS d.event_name = true
    · exact ⟨hc.1, by rw [hev, if_pos hc], truthy_ne_none _ hc.2⟩
    · rw [if_neg hc] at hne
      exact absurd rfl hne
  · intro h1 h2
    rw [hev, if_pos ⟨h1, h2⟩]
  · intro h
    rw [ht1n, if_neg]
    intro hc
    exact h hc.1
  · intro hne
    rw [ht1n] at hne
    by_cases hc : m.team1_name = none ∧ truthyS d.team1_name = true
    · exact ⟨hc.1, by rw [ht1n, if_pos hc], truthy_ne_none _ hc.2⟩
    · rw [if_neg hc] at hne
      exact absurd rfl hne
  · intro h1 h2
    rw [ht1n, if_pos ⟨h1, h2⟩]
  · intro h
    rw [ht2n, if_neg]
    intro hc
    exact h hc.1
  · intro hne
    rw [ht2n] at hne
    by_cases hc : m.team2_name = none ∧ truthyS d.team2_name = true
    · exact ⟨hc.1, by rw [ht2n, if_pos hc], truthy_ne_none _ hc.2⟩
    · rw [if_neg hc] at hne
      exact absurd rfl hne
  · intro h1 h2
    rw [ht2n, if_pos ⟨h1, h2⟩]
  · intro h
    rw [ht1s, if_neg h]
  · intro hne
    rw [ht1s] at hne
    by_cases hc : m.team1_score = none
    · rw [if_pos hc] at hne
      refine ⟨hc, by rw [ht1s, if_pos hc], ?_⟩
      rw [hc] at hne
      exact hne
    · rw [if_neg hc] at hne
      exact absurd rfl hne
  · intro hc
    rw [ht1s, if_pos hc]
  · intro h
    rw [ht2s, if_neg h]
  · intro hne
    rw [ht2s] at hne
    by_cases hc : m.team2_score = none
    · rw [if_pos hc] at hne
      refine ⟨hc, by rw [ht2s, if_pos hc], ?_⟩
      rw [hc] at hne
      exact hne
    · rw [if_neg hc] at hne
      exact absurd rfl hne
  · intro hc
    rw [ht2s, if_pos hc]
  · intro h
    rw [hreg, if_neg h]
  · intro hne
    rw [hreg] at hne
    by_cases hc : m.region_id = none
    · rw [if_pos hc] at hne
      refine ⟨hc, by rw [hreg, if_pos hc], ?_⟩
      rw [hc] at hne
      exact hne
    · rw [if_neg hc] at hne
      exact absurd rfl hne
  · intro hc
    rw [hreg, if_pos hc]

/-- C5 witness rows: a stored row that already knows its event name. -/
def c5KnownRow : MatchRow :=
  { match_source_id := "7"
    match_url := none
    status := "Live"
    event_name := some "Champions"
    team1_name := none
    team2_name := none
    team1_score := none
    team2_score := none
    region_id := none }

/-- C5 witness record: a re-scrape supplying a different event name. -/
def c5MastersRecord : ParsedMatch :=
  { match_source_id := "7"
    match_url := "https://vlr.gg/7/x"
    status := "Live"
    team1_name := none
    team2_name := none
    team1_score := none
    team2_score := none
    event_name := some "Masters" }

/-- C5 witness rows: a stored row with no event name yet. -/
def c5EmptyRow : MatchRow :=
  { match_source_id := "8"
    match_url := none
    status := "Live"
    event_name := none
    team1_name := none
    team2_name := none
    team1_score := none
    team2_score := none
    region_id := none }

/-- C5 witness record: a re-scrape supplying an event name for the first time. -/
def c5ChampionsRecord : ParsedMatch :=
  { match_source_id := "8"
    match_url := "https://vlr.gg/8/x"
    status := "Live"
    team1_name := none
    team2_name := none
    team1_score := none
    team2_score := none
    event_name := some "Champions" }

/-- Witness for C5: the stored value Champions survives a re-scrape supplying
Masters, and a null stored event name is filled by Champions. -/
theorem c5_fill_forward_witness :
    c5KnownRow.event_name ≠ none
    ∧ (updateExisting c5KnownRow c5MastersRecord none).event_name = some "Champions"
    ∧ c5EmptyRow.event_name = none
    ∧ truthyS c5ChampionsRecord.event_name = true
    ∧ (updateExisting c5EmptyRow c5ChampionsRecord none).event_name = some "Champions" := by
  refine ⟨by decide, ?_, rfl, by decide, ?_⟩
  · exact (c5_fill_forward c5KnownRow c5MastersRecord none).1.1 (by decide)
  · exact (c5_fill_forward c5EmptyRow c5ChampionsRecord none).1.2.2 rfl (by decide)

theorem inferLoop_eq_find (enU : String) :
    ∀ (mapping : List (String × Nat)),
      (∀ p ∈ mapping, p.1.data ≠ [] ∧ strUpper p.1 = p.1) →
      inferLoop mapping enU
        = (mapping.find? (fun p => strIn (strUpper p.1) enU)).map (fun p => p.2) := by
  intro mapping
  induction mapping with
  | nil => intro _; rfl
  | cons p rest ih =>
    intro h
    obtain ⟨hne, hup⟩ := h p (List.mem_cons_self p rest)
    have hemp : p.1.data.isEmpty = false := by
      cases hd : p.1.data
      · exact absurd hd hne
      · rfl
    unfold inferLoop
    by_cases hin : strIn p.1 enU = true
    · rw [List.find?_cons_of_pos]
      · simp [hemp, hin]
      · show strIn (strUpper p.1) enU = true
        rw [hup]
        exact hin
    · rw [List.find?_cons_of_neg]
      · have hf : strIn p.1 enU = false := by
          cases hx : strIn p.1 enU
          · rfl
          · exact absurd hx hin
        have hb : (!p.1.data.isEmpty && strIn p.1 enU) = false := by
          rw [hf, Bool.and_false]
        rw [hb]
        simp only [Bool.false_eq_true, if_false]
        exact ih (fun q hq => h q (List.mem_cons_of_mem p hq))
      · show ¬ strIn (strUpper p.1) enU = true
        rw [hup]
        exact hin

/-- C9 — Region inference: given a mapping from nonempty uppercase
abbreviations to region identifiers, the inferred region is the identifier of
the first abbreviation (in mapping iteration order) occurring
case-insensitively in the event name, and it is none when nothing matches or
the event name is absent — the code path coincides with the spec-side
first-match definition. -/
theorem c9_region_inference (mapping : List (String × Nat)) (en : Option String)
    (h : ∀ p ∈ mapping, p.1.data ≠ [] ∧ strUpper p.1 = p.1) :
    inferRegion mapping en = regionFirstMatch mapping en := by
  cases en with
  | none => rfl
  | some s =>
    show (if s.data.isEmpty = true then none else inferLoop mapping (strUpper s))
        = Option.map (fun p => p.2)
            (List.find? (fun p => strIn (strUpper p.1) (strUpper s)) mapping)
    cases hld : s.data with
    | nil =>
      have hfind : (mapping.find? (fun p => strIn (strUpper p.1) (strUpper s))) = none := by
        rw [List.find?_eq_none]
        intro q hq
        obtain ⟨hne, hup⟩ := h q hq
        show ¬ strIn (strUpper q.1) (strUpper s) = true
        rw [hup]
        show ¬ hasSubstr q.1.data (s.data.map Char.toUpper) = true
        rw [hld]
        simp only [List.map_nil]
        cases hqd : q.1.data with
        | nil => exact absurd hqd hne
        | cons c t => simp [hasSubstr, leadMatch]
      rw [hfind]
      rfl
    | cons a t =>
      simp only [List.isEmpty_cons, Bool.false_eq_true, if_false]
      exact inferLoop_eq_find (strUpper s) mapping h

/-- C9 witness mapping with two nonempty uppercase abbreviations. -/
def c9Mapping : List (String × Nat) := [("EMEA", 1), ("CN", 2)]

/-- Witness for C9 at a concrete mapping and event name. -/
theorem c9_region_inference_witness :
    (∀ p ∈ c9Mapping, p.1.data ≠ [] ∧ strUpper p.1 = p.1)
    ∧ inferRegion c9Mapping (some "Valorant Masters EMEA")
        = regionFirstMatch c9Mapping (some "Valorant Masters EMEA")
    ∧ inferRegion c9Mapping (some "Valorant Masters EMEA") = some 1 :=
  ⟨by decide, c9_region_inference c9Mapping (some "Valorant Masters EMEA") (by decide),
    by decide⟩

/-- Witness for C6: the exact-value clause applied at the input " 42 " and the
default clause applied at the non-numeric input "abc". -/
theorem c6_normalizer_int_exact_witness :
    (PyVal.vstr " 42 " ≠ PyVal.pnone)
    ∧ matchesIntShape (pyClean (pyStr (PyVal.vstr " 42 "))) = true
    ∧ _safe_cast (PyVal.vstr " 42 ") CastTy.tint (PyVal.vint 0)
        = PyVal.vint (decimalVal (pyClean (pyStr (PyVal.vstr " 42 "))))
    ∧ (PyVal.vstr "abc" ≠ PyVal.pnone)
    ∧ matchesIntShape (plusStrip (pyClean (pyStr (PyVal.vstr "abc")))) = false
    ∧ _safe_cast (PyVal.vstr "abc") CastTy.tint (PyVal.vint 99) = PyVal.vint 99 :=
  ⟨by decide, by decide,
    c6_normalizer_int_exact.1 (PyVal.vstr " 42 ") (PyVal.vint 0) (by decide) (by decide),
    by decide, by decide,
    c6_normalizer_int_exact.2.1 (PyVal.vstr "abc") (PyVal.vint 99) (by decide) (by decide)⟩

/-! ### HTML model and the List Page Parser (vlr_scraper.py lines 95-173)

The BeautifulSoup document is modelled as a tree of element and text nodes;
`select`, `select_one` and `find` are implemented over it with CSS descendant
semantics: a compound simple selector matches one element, and a chain of
simple selectors separated by blanks requires matching ancestors in order. -/

/-- An HTML node: an element with tag name, class list, attributes and
children, or a text node. -/
inductive HNode where
  | elem (tag : String) (classes : List String) (attrs : List (String × String))
      (children : List HNode)
  | txt (s : String)

/-- A simple CSS selector: an optional tag name plus required classes. -/
structure Sel where
  tag : Option String
  classes : List String
deriving DecidableEq, Repr

mutual

/-- BeautifulSoup `.text`: concatenation of all descendant strings. -/
def nodeText : HNode → String
  | .txt s => s
  | .elem _ _ _ cs => nodesText cs

/-- Text of a forest of nodes, in document order. -/
def nodesText : List HNode → String
  | [] => ""
  | n :: ns => nodeText n ++ nodesText ns

end

/-- Does a node match one simple selector (elements only)? -/
def matchesSel (s : Sel) : HNode → Bool
  | .txt _ => false
  | .elem t cls _ _ =>
    (match s.tag with
     | none => true
     | some tg => tg = t)
    && s.classes.all (fun c => cls.contains c)

/-- Greedy matching of a reversed selector prefix against the ancestor list
(nearest ancestor first); sound and complete for descendant combinators. -/
def ancChain : List Sel → List HNode → Bool
  | [], _ => true
  | _ :: _, [] => false
  | s :: rest, a :: as =>
    if matchesSel s a then ancChain rest as else ancChain (s :: rest) as

/-- Does a node with the given ancestors match the reversed selector chain? -/
def chainRevMatches (revChain : List Sel) (ancs : List HNode) (n : HNode) : Bool :=
  match revChain with
  | [] => false
  | s :: rest => matchesSel s n && ancChain rest ancs

mutual

/-- Collect, in document order, the nodes of the subtree rooted at `n`
(including `n`) matching the reversed chain given the ancestors `ancs`. -/
def collectNode (revChain : List Sel) (ancs : List HNode) : HNode → List HNode
  | .txt _ => []
  | .elem t c a cs =>
    (if chainRevMatches revChain ancs (HNode.elem t c a cs)
     then [HNode.elem t c a cs] else [])
      ++ collectForest revChain (HNode.elem t c a cs :: ancs) cs

/-- Collect over a forest of siblings, left to right. -/
def collectForest (revChain : List Sel) (ancs : List HNode) : List HNode → List HNode
  | [] => []
  | n :: ns => collectNode revChain ancs n ++ collectForest revChain ancs ns

end

/-- BeautifulSoup `root.select(chain)`: matching descendants of `root` in
document order (the root itself is not a candidate but may serve as an
ancestor for the leading parts of the chain). -/
def selectAll (root : HNode) (chain : List Sel) : List HNode :=
  match root with
  | .txt _ => []
  | .elem _ _ _ cs => collectForest chain.reverse [root] cs

/-- BeautifulSoup `root.select_one(chain)`. -/
def selectOne (root : HNode) (chain : List Sel) : Option HNode :=
  (selectAll root chain).head?

/-- BeautifulSoup `root.find(tag, class_=cls)`. -/
def findElem (root : HNode) (tg : String) (cls : String) : Option HNode :=
  selectOne root [⟨some tg, [cls]⟩]

/-- BeautifulSoup `element.get(key)` on the attribute list. -/
def getAttr (n : HNode) (key : String) : Option String :=
  match n with
  | .txt _ => none
  | .elem _ _ attrs _ => (attrs.find? (fun p => p.1 = key)).map (fun p => p.2)

/-- `https://vlr.gg` (line 19). -/
def BASE_URL : String := "https://vlr.gg"

/-- Selector `a.match-item` (line 113). -/
def selAnchor : List Sel := [⟨some "a", ["match-item"]⟩]

/-- Selector `.match-item-vs-team-name .text-of` (line 140). -/
def teamSel : List Sel := [⟨none, ["match-item-vs-team-name"]⟩, ⟨none, ["text-of"]⟩]

/-- Selector `.match-item-event .text-of` (line 145). -/
def eventSel : List Sel := [⟨none, ["match-item-event"]⟩, ⟨none, ["text-of"]⟩]

/-- Selector `.match-item-event-series.text-of` (line 146). -/
def eventSubSel : List Sel := [⟨none, ["match-item-event-series", "text-of"]⟩]

/-- Selector `match-item-vs-team-score  js-spoiler` exactly as written at line
158: the missing dots make both components tag-name selectors, so this
matches `js-spoiler` tags under `match-item-vs-team-score` tags, never the
class-styled score spans. -/
def scoreSel : List Sel := [⟨some "match-item-vs-team-score", []⟩, ⟨some "js-spoiler", []⟩]

/-- Status extraction (lines 128-137), including the nested
`ml-status-label` fallback and the `final` to `Completed` normalization.
A BeautifulSoup Tag defines its boolean conversion as constantly true, so the
truthiness tests `if status_element` and `if final_span` in the source are
exactly not-None checks. -/
def parseStatus (element : HNode) : String :=
  let status_element := findElem element "div" "ml-status"
  let status_text :=
    match status_element with
    | some se => pyStrip (nodeText se)
    | none => "Unknown"
  let status_text :=
    match status_element with
    | some se =>
      if status_text = "" then
        match findElem se "span" "ml-status-label" with
        | some sp => pyStrip (nodeText sp)
        | none => status_text
      else status_text
    | none => status_text
  if strLower status_text = "final" then "Completed" else status_text

/-- Event-name extraction (lines 144-155): primary label, optionally combined
with or replaced by the series sub-label.  The truthiness test
`if event_subtext_element` is a not-None check, since a BeautifulSoup Tag
converts to true unconditionally. -/
def parseEventName (element : HNode) : Option String :=
  let event_element := selectOne element eventSel
  let event_subtext_element := selectOne element eventSubSel
  let event_name := event_element.map (fun e => pyStrip (nodeText e))
  match event_subtext_element with
  | none => event_name
  | some subEl =>
    let sub_text := pyStrip (nodeText subEl)
    if truthyS event_name ∧ !sub_text.data.isEmpty
        ∧ !strIn (strLower sub_text) (strLower (event_name.getD "")) then
      some (event_name.getD "" ++ ": " ++ sub_text)
    else if !sub_text.data.isEmpty then some sub_text
    else event_name

/-- Score string cast (lines 161-162): `_safe_cast(s, int)` with default
`None`, projected back to an optional integer. -/
def castScoreStr (s : Option String) : Option Int :=
  match _safe_cast (match s with | none => PyVal.pnone | some str => PyVal.vstr str)
      CastTy.tint PyVal.pnone with
  | .vint n => some n
  | _ => none

/-- Record assembly for a validated row (lines 139-169): the second path
component is the match id, checked to be digits. -/
def parseRowId (element : HNode) (h : String) : Option String → Option ParsedMatch
  | none => none
  | some p =>
    if pyIsDigit p then
      let team_elements := selectAll element teamSel
      let score_elements := selectAll element scoreSel
      some
        { match_source_id := p
          match_url := BASE_URL ++ h
          status := parseStatus element
          team1_name := (team_elements.get? 0).map (fun e => pyStrip (nodeText e))
          team2_name := (team_elements.get? 1).map (fun e => pyStrip (nodeText e))
          team1_score := castScoreStr ((score_elements.get? 0).map (fun e => pyStrip (nodeText e)))
          team2_score := castScoreStr ((score_elements.get? 1).map (fun e => pyStrip (nodeText e)))
          event_name := parseEventName element }
    else none

/-- Href validation of line 119: empty or missing hrefs and non-digit ids are
skipped. -/
def parseRowHref (element : HNode) : Option String → Option ParsedMatch
  | none => none
  | some h =>
    if h.data.isEmpty then none
    else parseRowId element h ((pySplitChar '/' h).get? 1)

/-- One iteration of the `parse_match_list` loop body (lines 117-170) minus
the dedup bookkeeping: `none` when the anchor is skipped for an invalid href
(line 119), otherwise the assembled record. -/
def parseRow (element : HNode) : Option ParsedMatch :=
  parseRowHref element (getAttr element "href")

/-- The `parse_match_list` loop (lines 117-170) with its `processed_ids`
dedup set. -/
def parseLoop : List HNode → List String → List ParsedMatch
  | [], _ => []
  | e :: rest, seen =>
    match parseRow e with
    | none => parseLoop rest seen
    | some r =>
      if r.match_source_id ∈ seen then parseLoop rest seen
      else r :: parseLoop rest (r.match_source_id :: seen)

/-- `parse_match_list(html_content, source_url)` (lines 95-173) on the parsed
document tree; the source-url parameter is only used for logging and is
omitted. -/
def parse_match_list (doc : HNode) : List ParsedMatch :=
  parseLoop (selectAll doc selAnchor) []

/-- C1 input: a list page with one match anchor for `/450053/team-a-vs-team-b`
carrying a `final` status indicator and two score spans containing 13 and 11
(class-styled as on the live site). -/
def c1Doc : HNode :=
  .elem "html" [] [] [
    .elem "a" ["match-item"] [("href", "/450053/team-a-vs-team-b")] [
      .elem "div" ["ml-status"] [] [.txt "final"],
      .elem "span" ["match-item-vs-team-score", "js-spoiler"] [] [.txt "13"],
      .elem "span" ["match-item-vs-team-score", "js-spoiler"] [] [.txt "11"]]]

/-- The record `parse_match_list` actually produces for `c1Doc`. -/
def c1Record : ParsedMatch :=
  { match_source_id := "450053"
    match_url := "https://vlr.gg/450053/team-a-vs-team-b"
    status := "Completed"
    team1_name := none
    team2_name := none
    team1_score := none
    team2_score := none
    event_name := none }

/-- C1 — evaluation of the code at the claimed scenario: exactly one record
is produced, with source id 450053 and status Completed, but both team scores
come out null, not 13 and 11: the selector at line 158 is missing its class
dots, so it looks for `match-item-vs-team-score` and `js-spoiler` tag names
and never finds the class-styled score spans. -/
theorem c1_code_behavior :
    parse_match_list c1Doc = [c1Record]
    ∧ c1Record.match_source_id = "450053"
    ∧ c1Record.status = "Completed"
    ∧ c1Record.team1_score = none
    ∧ c1Record.team2_score = none := by
  refine ⟨?_, rfl, rfl, rfl, rfl⟩
  decide

/-- C3 input: a list page with one valid anchor that has no status, team,
score or event sub-elements at all. -/
def c3Doc : HNode :=
  .elem "html" [] [] [.elem "a" ["match-item"] [("href", "/123/x")] []]

/-- The bare anchor inside `c3Doc`. -/
def c3Anchor : HNode := .elem "a" ["match-item"] [("href", "/123/x")] []

/-- The record `parse_match_list` actually produces for `c3Doc`. -/
def c3Record : ParsedMatch :=
  { match_source_id := "123"
    match_url := "https://vlr.gg/123/x"
    status := "Unknown"
    team1_name := none
    team2_name := none
    team1_score := none
    team2_score := none
    event_name := none }

/-- C3 (counterexample): a row whose status element is missing is emitted
with the string status "Unknown", not the null claimed — the other absent
sub-elements do yield null fields. -/
theorem c3_counterexample :
    parse_match_list c3Doc = [c3Record]
    ∧ findElem c3Anchor "div" "ml-status" = none
    ∧ c3Record.status = "Unknown" := by
  refine ⟨?_, rfl, rfl⟩
  decide

/-- C3 (amended): for every candidate row that passes the href check, a
missing team-name, score or event sub-element yields null for that field and
the row is still emitted; a missing status element yields the placeholder
string "Unknown" (not null). -/
theorem c3_amended (e : HNode) (r : ParsedMatch) (h : parseRow e = some r) :
    (findElem e "div" "ml-status" = none → r.status = "Unknown")
    ∧ (selectAll e teamSel = [] → r.team1_name = none ∧ r.team2_name = none)
    ∧ (selectAll e scoreSel = [] → r.team1_score = none ∧ r.team2_score = none)
    ∧ (selectOne e eventSel = none → selectOne e eventSubSel = none →
        r.event_name = none)
    ∧ (∀ rest : List HNode,
        parseLoop (e :: rest) [] = r :: parseLoop rest [r.match_source_id]) := by
  have hrow := h
  unfold parseRow at h
  cases hh : getAttr e "href" with
  | none =>
    rw [hh] at h
    exact absurd h (by simp [parseRowHref])
  | some hstr =>
    rw [hh] at h
    rw [show parseRowHref e (some hstr)
          = (if hstr.data.isEmpty then none
             else parseRowId e hstr ((pySplitChar '/' hstr).get? 1)) from rfl] at h
    by_cases he : hstr.data.isEmpty = true
    · rw [if_pos he] at h
      exact absurd h (by simp)
    · rw [if_neg he] at h
      cases hp : (pySplitChar '/' hstr).get? 1 with
      | none =>
        rw [hp] at h
        exact absurd h (by simp [parseRowId])
      | some p =>
        rw [hp] at h
        rw [show parseRowId e hstr (some p)
              = (if pyIsDigit p then
                  some
                    { match_source_id := p
                      match_url := BASE_URL ++ hstr
                      status := parseStatus e
                      team1_name := ((selectAll e teamSel).get? 0).map (fun x => pyStrip (nodeText x))
                      team2_name := ((selectAll e teamSel).get? 1).map (fun x => pyStrip (nodeText x))
                      team1_score := castScoreStr (((selectAll e scoreSel).get? 0).map (fun x => pyStrip (nodeText x)))
                      team2_score := castScoreStr (((selectAll e scoreSel).get? 1).map (fun x => pyStrip (nodeText x)))
                      event_name := parseEventName e }
                 else none) from rfl] at h
        by_cases hd : pyIsDigit p = true
        · rw [if_pos hd] at h
          simp only [Option.some.injEq] at h
          subst h
          refine ⟨?_, ?_, ?_, ?_, ?_⟩
          · intro hfind
            show parseStatus e = "Unknown"
            simp only [parseStatus, hfind]
            decide
          · intro hteams
            constructor
            · show ((selectAll e teamSel).get? 0).map _ = none
              rw [hteams]
              rfl
            · show ((selectAll e teamSel).get? 1).map _ = none
              rw [hteams]
              rfl
          · intro hscores
            constructor
            · show castScoreStr (((selectAll e scoreSel).get? 0).map _) = none
              rw [hscores]
              rfl
            · show castScoreStr (((selectAll e scoreSel).get? 1).map _) = none
              rw [hscores]
              rfl
          · intro hev hevsub
            show parseEventName e = none
            simp only [parseEventName, hev, hevsub]
            rfl
          · intro rest
            simp [parseLoop, hrow]
        · rw [if_neg hd] at h
          exact absurd h (by simp)

/-- Witness for C3 at the bare anchor of `c3Doc`. -/
theorem c3_amended_witness :
    c3Record.status = "Unknown"
    ∧ c3Record.team1_name = none
    ∧ c3Record.team2_name = none
    ∧ c3Record.team1_score = none
    ∧ c3Record.team2_score = none
    ∧ c3Record.event_name = none :=
  have hc := c3_amended c3Anchor c3Record (by rfl)
  ⟨hc.1 (by rfl), (hc.2.1 (by rfl)).1, (hc.2.1 (by rfl)).2,
    (hc.2.2.1 (by rfl)).1, (hc.2.2.1 (by rfl)).2, hc.2.2.2.1 (by rfl) (by rfl)⟩

/-! ### Players, per-match stats and the detail upsert (vlr_scraper.py
lines 471-570, models.py, database.py)

The database session is modelled as an explicit state.  Three facts of the
program are load-bearing here and are modelled faithfully:

- `players.player_source_id` is declared `nullable=False, unique=True`
  (models.py line 91), so a `Player` created with a null source id violates
  NOT NULL when `_get_or_create_player` calls `db_session.flush()`
  (vlr_scraper.py line 492); the `except` at lines 493-495 then calls
  `db_session.rollback()`, which discards the entire pending transaction —
  every uncommitted insert of the current batch — not just the failed row.
  For the same reason a persisted player row never has a null source id, so
  the backfill at line 485 (guarded by `player.player_source_id is None`) is
  dead code and the model returns the name-matched row unchanged.
- The session is created with `autoflush=False` (database.py line 50), so
  SQL queries see only flushed rows: the `PlayerMatchStats` existence probe
  (lines 512-516) cannot see stats inserts still pending since the last
  flush.  A flush — triggered by a later player create, or by the final
  commit — applies all pending inserts at once and fails (rolling back, or
  aborting the commit) if the unique `(player_id, match_id)` constraint
  (models.py line 143) is violated among them.
- `db_session.commit()` (line 566) flushes the remaining pending inserts and
  makes the transaction durable; on failure the `except` at lines 568-570
  rolls the batch back, leaving the committed tables unchanged.

Row ids are assigned at flush; after a rollback SQLite reuses the discarded
ids (max rowid + 1), which the model mirrors by restoring the id counter
together with the tables. -/

/-- The scalar columns of `PlayerMatchStats` whitelisted at lines 522-537,
filled from the parsed row. -/
structure StatsPayload where
  team_name : Option String
  agent : Option String
  rating : Option Rat
  acs : Option Int
  kills : Option Int
  deaths : Option Int
  assists : Option Int
  kill_death_difference : Option Int
  adr : Option Int
  kast_percentage : Option Rat
  headshot_percentage : Option Rat
  first_kills : Option Int
  first_deaths : Option Int
  first_kill_first_death_difference : Option Int
deriving DecidableEq, Repr

/-- One parsed per-player record handed to `save_match_details`: identity
fields plus the whitelisted stat fields.  The source id is optional here —
`_parse_player_source_id` returns None for an unparseable profile link — but
the players table column is not nullable. -/
structure PData where
  player_name : Option String
  player_source_id : Option String
  stats : StatsPayload
deriving DecidableEq, Repr

/-- A persisted row of the `players` table.  `source_id` is a plain string:
the column is declared `nullable=False` (models.py line 91), so no row with a
null source id can ever be flushed. -/
structure DBPlayer where
  pid : Nat
  name : String
  source_id : String
deriving DecidableEq, Repr

/-- A row of the `player_match_stats` table. -/
structure StatsRow where
  player_id : Nat
  match_id : Nat
  payload : StatsPayload
deriving DecidableEq, Repr

/-- The three tables the detail upsert touches, plus the player id counter. -/
structure Tables where
  players : List DBPlayer
  nextId : Nat
  stats : List StatsRow
deriving DecidableEq, Repr

/-- An open session transaction: the committed tables at transaction start
(the rollback target), the tables as already flushed inside the transaction
(what SQL queries see), and the stats inserts still pending since the last
flush (invisible to queries because `autoflush=False`). -/
structure Sess where
  base : Tables
  flushed : Tables
  pending : List StatsRow
deriving DecidableEq, Repr

/-- `select(Player).where(Player.player_source_id == sid)` (lines 476-477). -/
def findBySid (ps : List DBPlayer) (sid : String) : Option DBPlayer :=
  ps.find? (fun p => p.source_id = sid)

/-- `select(Player).where(Player.name == nm)` (lines 479-480). -/
def findByName (ps : List DBPlayer) (nm : String) : Option DBPlayer :=
  ps.find? (fun p => p.name = nm)

/-- The uniqueness probe of lines 512-516, evaluated against flushed rows. -/
def statsHasPair (rows : List StatsRow) (pid mid : Nat) : Bool :=
  rows.any (fun r => r.player_id = pid && r.match_id = mid)

/-- Can the pending stats inserts be applied on top of the flushed stats
without violating the unique `(player_id, match_id)` constraint
(models.py line 143)? -/
def pendingOk : List StatsRow → List StatsRow → Bool
  | _, [] => true
  | fl, r :: rest =>
    !statsHasPair fl r.player_id r.match_id && pendingOk (fl ++ [r]) rest

/-- `db_session.rollback()`: every pending and flushed-but-uncommitted change
of the transaction is discarded; the session is back at the committed state
(the id counter included, as SQLite reuses rolled-back rowids). -/
def rollbackSess (s : Sess) : Sess :=
  { base := s.base, flushed := s.base, pending := [] }

/-- The create path of `_get_or_create_player` (lines 487-495):
`db_session.add(new_player)` followed by `db_session.flush()`.  The flush
writes the new player row and all pending stats inserts; it raises — and the
`except` rolls back the whole batch and returns None — when the source id is
null (NOT NULL constraint), when it collides with an existing source id
(unique constraint), or when a pending stats pair is a duplicate. -/
def createPlayer (s : Sess) (n : String) (sid : Option String) : Sess × Option DBPlayer :=
  match sid with
  | none => (rollbackSess s, none)
  | some sv =>
    if pendingOk s.flushed.stats s.pending && (findBySid s.flushed.players sv).isNone then
      ({ base := s.base,
         flushed :=
           { players := s.flushed.players ++ [⟨s.flushed.nextId, n, sv⟩],
             nextId := s.flushed.nextId + 1,
             stats := s.flushed.stats ++ s.pending },
         pending := [] },
        some ⟨s.flushed.nextId, n, sv⟩)
    else (rollbackSess s, none)

/-- `_get_or_create_player` (lines 471-497): lookup by source id, then by
name, then create.  The backfill branch at lines 483-485 requires a
name-matched row with `player_source_id is None`, which no persisted row of
the NOT NULL column can satisfy, so the name match is returned unchanged. -/
def _get_or_create_player (s : Sess) (nm sid : Option String) : Sess × Option DBPlayer :=
  if !truthyS sid && !truthyS nm then (s, none)
  else
    let found1 : Option DBPlayer :=
      if truthyS sid then findBySid s.flushed.players (sid.getD "") else none
    match found1 with
    | some pl => (s, some pl)
    | none =>
      let found2 : Option DBPlayer :=
        if truthyS nm then findByName s.flushed.players (nm.getD "") else none
      match found2 with
      | some q => (s, some q)
      | none =>
        if truthyS nm then createPlayer s (nm.getD "") sid
        else (s, none)

/-- The body of the `save_match_details` loop for one parsed record
(lines 504-561): resolve the player, probe for the `(player_id, match_id)`
pair among flushed rows, and add the stats insert as pending when absent. -/
def processStat (mid : Nat) (s : Sess) (pd : PData) : Sess :=
  if !truthyS pd.player_name && !truthyS pd.player_source_id then s
  else
    match _get_or_create_player s pd.player_name pd.player_source_id with
    | (s1, none) => s1
    | (s1, some pl) =>
      if statsHasPair s1.flushed.stats pl.pid mid then s1
      else { s1 with pending := s1.pending ++ [⟨pl.pid, mid, pd.stats⟩] }

/-- `db_session.commit()` (lines 564-570): flush the remaining pending
inserts and commit; on a constraint violation the batch is rolled back and
the committed tables are unchanged. -/
def commitSess (s : Sess) : Tables :=
  if pendingOk s.flushed.stats s.pending then
    { players := s.flushed.players, nextId := s.flushed.nextId,
      stats := s.flushed.stats ++ s.pending }
  else s.base

/-- `save_match_details` (lines 499-570): open a transaction on the
committed tables, fold the loop body over the parsed stats, and commit. -/
def save_match_details (mid : Nat) (committed : Tables) (ds : List PData) : Tables :=
  commitSess (ds.foldl (processStat mid) ⟨committed, committed, []⟩)

/-- C4 failing input: the empty committed database. -/
def c4EmptyTables : Tables := { players := [], nextId := 0, stats := [] }

/-- C4 payload for the parsed rows. -/
def c4Payload : StatsPayload :=
  { team_name := some "TH"
    agent := some "Neon"
    rating := some 1
    acs := some 225
    kills := some 18
    deaths := some 14
    assists := some 5
    kill_death_difference := some 4
    adr := some 143
    kast_percentage := some 70
    headshot_percentage := some 25
    first_kills := some 3
    first_deaths := some 2
    first_kill_first_death_difference := some 1 }

/-- C4 failing input, record R: a player with a parseable source id. -/
def c4RecordR : PData :=
  { player_name := some "r", player_source_id := some "1", stats := c4Payload }

/-- C4 failing input, record F: a player row whose profile link yielded no
source id (`_parse_player_source_id` returned None). -/
def c4RecordF : PData :=
  { player_name := some "m", player_source_id := none, stats := c4Payload }

/-- C4 failing input, record C: a player who shares record F's display name
and has a source id. -/
def c4RecordC : PData :=
  { player_name := some "m", player_source_id := some "9", stats := c4Payload }

/-- C4 failing input: the parsed stats list for one match. -/
def c4FailingStats : List PData := [c4RecordR, c4RecordF, c4RecordC]

/-- C4 — evaluation of the code at the failing input: in the first run,
record F's create with a null source id fails at flush and the rollback
discards record R's pending player and stats row, so the first commit holds
one player and one stats row (record C only).  In the second run record F
resolves by name to the committed player and does not fail, so record R's
re-created player and stats row survive to the commit: the second run for
the same match and the same parsed stats list inserts one new Player row and
one new PlayerMatchStats row, refuting the claimed idempotence. -/
theorem c4_code_behavior :
    (save_match_details 1 c4EmptyTables c4FailingStats).players.length = 1
    ∧ (save_match_details 1 c4EmptyTables c4FailingStats).stats.length = 1
    ∧ (save_match_details 1 (save_match_details 1 c4EmptyTables c4FailingStats)
        c4FailingStats).players.length = 2
    ∧ (save_match_details 1 (save_match_details 1 c4EmptyTables c4FailingStats)
        c4FailingStats).stats.length = 2
    ∧ save_match_details 1 (save_match_details 1 c4EmptyTables c4FailingStats)
        c4FailingStats
      ≠ save_match_details 1 c4EmptyTables c4FailingStats := by
  refine ⟨?_, ?_, ?_, ?_, ?_⟩ <;> decide
